import Mathlib

/-!
Verification of the glitch-squad training scripts (src/lab/train.py,
src/lab/train-gpu.py, src/lab/train-gpu-yolo12.py).

The scripts are configuration wrappers around an external trainer, an
external exporter and a remote dataset registry.  We embed them shallowly:
the external world is a record of oracles (does the local dataset
descriptor exist, what does the remote fetch return, does train or export
succeed for a given size variant), and every call into an external
collaborator is recorded as an event in a trace, so that properties such
as "the remote fetch is never invoked" become statements about the trace.
-/

/-- An observable call into an external collaborator. -/
inductive Event where
  /-- A remote-registry fetch: workspace, project, version, download format. -/
  | fetchCall (workspace : String) (project : String) (version : Nat) (fmt : String)
  /-- A call to the external trainer for one size variant:
  the variant token, the data yaml path passed, and the batch size passed. -/
  | trainCall (size : String) (data : String) (batch : Nat)
  /-- A call to the external exporter: the variant token, the requested
  format and whether non-maximum suppression is embedded. -/
  | exportCall (size : String) (fmt : String) (nms : Bool)
  deriving DecidableEq, Repr

/-- Why dataset resolution failed (the NoDatasetAvailable error of the spec). -/
inductive ResolveError where
  /-- The credential was empty or the placeholder sentinel. -/
  | missingCredential
  /-- The remote fetch raised; carries the underlying error message. -/
  | fetchError (msg : String)
  deriving DecidableEq, Repr

/-- The per-variant result of the train-and-export loop. -/
inductive RunOutcome where
  /-- Export succeeded; carries the artifact location named after the variant. -/
  | success (variant : String) (artifact : String)
  /-- Export raised; carries the captured error message. -/
  | failure (variant : String) (err : String)
  deriving DecidableEq, Repr

/-- The external world seen by the dataset-resolution phase:
whether workingDir/dataset/data.yaml exists, and what the remote
registry download returns (a dataset location, or an error message). -/
structure World where
  localExists : Bool
  fetchResult : Except String String
  deriving Repr

/-- The external trainer and exporter as oracles: for each size variant,
train either returns or raises a message; export likewise. -/
structure Behavior where
  trainResult : String → Except String Unit
  exportResult : String → Except String Unit

/-- The full observable result of a run: the trace of external calls, the
per-variant outcomes, and the uncaught train exception if one propagated. -/
structure RunTrace where
  events : List Event
  outcomes : List RunOutcome
  uncaught : Option String
  deriving DecidableEq, Repr

namespace TrainPy

/-- src/lab/train.py line 9: the credential is the ROBOFLOW_API_KEY
environment variable when set, else the literal default. -/
def API_KEY (env : Option String) : String := env.getD "wrBZSENL1YtFWZHbvACQ"

/-- src/lab/train.py line 12. -/
def PROJECT_WORKSPACE : String := "yolo-jpkho"

/-- src/lab/train.py line 13. -/
def PROJECT_NAME : String := "combined-vegetables-fruits"

/-- src/lab/train.py line 14. -/
def VERSION_NUMBER : Nat := 1

/-- The dataset-resolution phase of src/lab/train.py (main, lines 25-49):
if cwd/dataset/data.yaml exists, use the local directory; else if the key
is falsy or the placeholder, return with an error message; else download
version VERSION_NUMBER of the project in yolov8 format, succeeding with
the returned location or catching the raised error. -/
def resolve (cwd apiKey : String) (w : World) :
    List Event × Except ResolveError String :=
  if w.localExists then
    ([], .ok (cwd ++ "/dataset"))
  else if apiKey = "" ∨ apiKey = "YOUR_API_KEY_HERE" then
    ([], .error .missingCredential)
  else
    match w.fetchResult with
    | .ok loc =>
        ([.fetchCall PROJECT_WORKSPACE PROJECT_NAME VERSION_NUMBER "yolov8"], .ok loc)
    | .error msg =>
        ([.fetchCall PROJECT_WORKSPACE PROJECT_NAME VERSION_NUMBER "yolov8"],
         .error (.fetchError msg))

end TrainPy

namespace TrainGpu

/-- src/lab/train-gpu.py line 9. -/
def API_KEY (env : Option String) : String := env.getD "wrBZSENL1YtFWZHbvACQ"

/-- src/lab/train-gpu.py line 12. -/
def PROJECT_WORKSPACE : String := "yolo-jpkho"

/-- src/lab/train-gpu.py line 13. -/
def PROJECT_NAME : String := "combined-vegetables-fruits"

/-- src/lab/train-gpu.py line 14. -/
def VERSION_NUMBER : Nat := 1

/-- src/lab/train-gpu.py lines 26-30: the per-size batch override table. -/
def BATCH_CONFIG : List (String × Nat) := [("s", 128), ("m", 48), ("l", 32)]

/-- src/lab/train-gpu.py line 17. -/
def MODEL_SIZES : List String := ["s", "m", "l"]

/-- The dataset-resolution phase of src/lab/train-gpu.py (main, lines
39-63): identical in structure to the one in train.py. -/
def resolve (cwd apiKey : String) (w : World) :
    List Event × Except ResolveError String :=
  if w.localExists then
    ([], .ok (cwd ++ "/dataset"))
  else if apiKey = "" ∨ apiKey = "YOUR_API_KEY_HERE" then
    ([], .error .missingCredential)
  else
    match w.fetchResult with
    | .ok loc =>
        ([.fetchCall PROJECT_WORKSPACE PROJECT_NAME VERSION_NUMBER "yolov8"], .ok loc)
    | .error msg =>
        ([.fetchCall PROJECT_WORKSPACE PROJECT_NAME VERSION_NUMBER "yolov8"],
         .error (.fetchError msg))

end TrainGpu

namespace TrainGpuYolo12

/-- src/lab/train-gpu-yolo12.py line 9. -/
def API_KEY (env : Option String) : String := env.getD "wrBZSENL1YtFWZHbvACQ"

/-- src/lab/train-gpu-yolo12.py line 12. -/
def PROJECT_WORKSPACE : String := "yolo-jpkho"

/-- src/lab/train-gpu-yolo12.py line 13. -/
def PROJECT_NAME : String := "combined-vegetables-fruits"

/-- src/lab/train-gpu-yolo12.py line 14. -/
def VERSION_NUMBER : Nat := 1

/-- src/lab/train-gpu-yolo12.py lines 26-30. -/
def BATCH_CONFIG : List (String × Nat) := [("s", 32), ("m", 16), ("l", 16)]

/-- src/lab/train-gpu-yolo12.py line 18. -/
def MODEL_SIZES : List String := ["s", "m", "l"]

/-- The dataset-resolution phase of src/lab/train-gpu-yolo12.py (main,
lines 40-65): identical in structure to the one in train.py. -/
def resolve (cwd apiKey : String) (w : World) :
    List Event × Except ResolveError String :=
  if w.localExists then
    ([], .ok (cwd ++ "/dataset"))
  else if apiKey = "" ∨ apiKey = "YOUR_API_KEY_HERE" then
    ([], .error .missingCredential)
  else
    match w.fetchResult with
    | .ok loc =>
        ([.fetchCall PROJECT_WORKSPACE PROJECT_NAME VERSION_NUMBER "yolov8"], .ok loc)
    | .error msg =>
        ([.fetchCall PROJECT_WORKSPACE PROJECT_NAME VERSION_NUMBER "yolov8"],
         .error (.fetchError msg))

end TrainGpuYolo12

/-- The per-script parameters of the train-and-export loop: the model
family prefix used in weight and run names, and the batch override table. -/
structure ScriptConfig where
  family : String
  batchConfig : List (String × Nat)

/-- BATCH_CONFIG.get(size, 16): the batch size passed to the trainer
(src/lab/train-gpu.py line 77, src/lab/train-gpu-yolo12.py line 79). -/
def batchFor (cfg : ScriptConfig) (size : String) : Nat :=
  (cfg.batchConfig.lookup size).getD 16

/-- The expected output location of a trained variant, from the fixed
naming convention name=family+size+"_fruit" under runs/detect
(src/lab/train-gpu.py lines 86 and 129). -/
def artifactPath (cfg : ScriptConfig) (size : String) : String :=
  "runs/detect/" ++ cfg.family ++ size ++ "_fruit"

/-- The train-and-export loop of src/lab/train-gpu.py (main, lines 66-131)
and src/lab/train-gpu-yolo12.py (main, lines 68-107), over an arbitrary
variant sequence.  For each size in order: call the trainer with
dataset_location/data.yaml and the looked-up batch size; a train error is
not caught, so the loop stops there with the error uncaught and no outcome
for the failing or later variants.  On train success, call the exporter
with format coreml and nms=True inside a try block: an export error is
caught and recorded as a failure outcome for this variant, and the loop
continues; on export success a success outcome with the conventional
artifact location is recorded. -/
def runLoop (cfg : ScriptConfig) (b : Behavior) (dataset : String) :
    List String → RunTrace
  | [] => ⟨[], [], none⟩
  | size :: rest =>
    let trainEv := Event.trainCall size (dataset ++ "/data.yaml") (batchFor cfg size)
    match b.trainResult size with
    | .error e => ⟨[trainEv], [], some e⟩
    | .ok _ =>
      let exportEv := Event.exportCall size "coreml" true
      let t := runLoop cfg b dataset rest
      match b.exportResult size with
      | .ok _ =>
          ⟨trainEv :: exportEv :: t.events,
           .success size (artifactPath cfg size) :: t.outcomes, t.uncaught⟩
      | .error e =>
          ⟨trainEv :: exportEv :: t.events,
           .failure size e :: t.outcomes, t.uncaught⟩

/-- The loop parameters of src/lab/train-gpu.py. -/
def gpuConfig : ScriptConfig := ⟨"yolo11", TrainGpu.BATCH_CONFIG⟩

/-- The loop parameters of src/lab/train-gpu-yolo12.py. -/
def yolo12Config : ScriptConfig := ⟨"yolo12", TrainGpuYolo12.BATCH_CONFIG⟩

/-- The whole of main in src/lab/train-gpu.py: resolve the dataset, and on
resolution failure print and return (a clean exit with no training
attempted); on success run the loop over MODEL_SIZES. -/
def mainTrainGpu (cwd apiKey : String) (w : World) (b : Behavior) : RunTrace :=
  match TrainGpu.resolve cwd apiKey w with
  | (evs, .error _) => ⟨evs, [], none⟩
  | (evs, .ok loc) =>
    let t := runLoop gpuConfig b loc TrainGpu.MODEL_SIZES
    ⟨evs ++ t.events, t.outcomes, t.uncaught⟩

/-- The trace block one successfully trained variant contributes:
its train call followed by its export call. -/
def variantBlock (cfg : ScriptConfig) (dataset size : String) : List Event :=
  [.trainCall size (dataset ++ "/data.yaml") (batchFor cfg size),
   .exportCall size "coreml" true]

/-- The outcome recorded for one successfully trained variant. -/
def outcomeOf (cfg : ScriptConfig) (b : Behavior) (size : String) : RunOutcome :=
  match b.exportResult size with
  | .ok _ => .success size (artifactPath cfg size)
  | .error e => .failure size e

/-- Unfolding lemma: the loop on a variant whose train call returns. -/
lemma runLoop_cons_ok (cfg : ScriptConfig) (b : Behavior) (d size : String)
    (rest : List String) (h : b.trainResult size = .ok ()) :
    runLoop cfg b d (size :: rest) =
      ⟨variantBlock cfg d size ++ (runLoop cfg b d rest).events,
       outcomeOf cfg b size :: (runLoop cfg b d rest).outcomes,
       (runLoop cfg b d rest).uncaught⟩ := by
  simp only [runLoop, h, variantBlock, outcomeOf]
  cases hexp : b.exportResult size <;> simp

/-- Unfolding lemma: the loop on a variant whose train call raises. -/
lemma runLoop_cons_error (cfg : ScriptConfig) (b : Behavior) (d size e : String)
    (rest : List String) (h : b.trainResult size = .error e) :
    runLoop cfg b d (size :: rest) =
      ⟨[.trainCall size (d ++ "/data.yaml") (batchFor cfg size)], [], some e⟩ := by
  simp only [runLoop, h]

/-- Closed form of the loop when every train call returns: the trace is the
concatenation of the per-variant train-then-export blocks in input order,
the outcomes are one per variant in input order, and no exception escapes. -/
lemma runLoop_all_trains_ok (cfg : ScriptConfig) (b : Behavior) (d : String) :
    ∀ sizes : List String, (∀ s ∈ sizes, b.trainResult s = .ok ()) →
      runLoop cfg b d sizes =
        ⟨(sizes.map (variantBlock cfg d)).flatten, sizes.map (outcomeOf cfg b), none⟩
  | [], _ => rfl
  | size :: rest, h => by
      have hs : b.trainResult size = .ok () := h size (List.mem_cons_self ..)
      have ih := runLoop_all_trains_ok cfg b d rest
        (fun x hx => h x (List.mem_cons_of_mem _ hx))
      rw [runLoop_cons_ok cfg b d size rest hs, ih]
      simp

/-- Closed form of the loop when the train call raises on one variant and
every earlier train call returns: the trace stops at the failing train
call, the outcomes cover exactly the earlier variants, and the error
escapes uncaught. -/
lemma runLoop_train_error (cfg : ScriptConfig) (b : Behavior) (d s e : String)
    (post : List String) (hs : b.trainResult s = .error e) :
    ∀ pre : List String, (∀ x ∈ pre, b.trainResult x = .ok ()) →
      runLoop cfg b d (pre ++ s :: post) =
        ⟨(pre.map (variantBlock cfg d)).flatten ++
           [.trainCall s (d ++ "/data.yaml") (batchFor cfg s)],
         pre.map (outcomeOf cfg b), some e⟩
  | [], _ => by
      rw [List.nil_append, runLoop_cons_error cfg b d s e post hs]
      simp
  | x :: pre, h => by
      have hx : b.trainResult x = .ok () := h x (List.mem_cons_self ..)
      have ih := runLoop_train_error cfg b d s e post hs pre
        (fun y hy => h y (List.mem_cons_of_mem _ hy))
      rw [List.cons_append, runLoop_cons_ok cfg b d x _ hx, ih]
      simp

/-- Every train call the loop issues carries the looked-up batch size and
the data yaml path under the resolved dataset location. -/
lemma trainCall_mem_batch (cfg : ScriptConfig) (b : Behavior) (d : String) :
    ∀ (sizes : List String) (s data : String) (n : Nat),
      Event.trainCall s data n ∈ (runLoop cfg b d sizes).events →
      n = batchFor cfg s ∧ data = d ++ "/data.yaml"
  | [], _, _, _, hmem => by simp [runLoop] at hmem
  | size :: rest, s, data, n, hmem => by
      cases ht : b.trainResult size with
      | error e =>
          rw [runLoop_cons_error cfg b d size e rest ht] at hmem
          simp at hmem
          obtain ⟨h1, h2, h3⟩ := hmem
          subst h1; subst h2; subst h3
          exact ⟨rfl, rfl⟩
      | ok u =>
          rw [runLoop_cons_ok cfg b d size rest ht] at hmem
          simp [variantBlock] at hmem
          rcases hmem with ⟨h1, h2, h3⟩ | hmem
          · subst h1; subst h2; subst h3
            exact ⟨rfl, rfl⟩
          · exact trainCall_mem_batch cfg b d rest s data n hmem

/-- The variant a run outcome belongs to. -/
def variantName : RunOutcome → String
  | .success v _ => v
  | .failure v _ => v

lemma variantName_outcomeOf (cfg : ScriptConfig) (b : Behavior) (s : String) :
    variantName (outcomeOf cfg b s) = s := by
  unfold outcomeOf
  cases b.exportResult s <;> rfl

/-- A world with a local dataset descriptor (and a broken network). -/
def wLocal : World := ⟨true, .error "net down"⟩

/-- A world with no local dataset descriptor and a failing remote fetch. -/
def wNoLocal : World := ⟨false, .error "http 401"⟩

/-- Oracles where train and export always return. -/
def bAllOk : Behavior := ⟨fun _ => .ok (), fun _ => .ok ()⟩

/-- Oracles where train always returns and export raises for size s only. -/
def bExportFailS : Behavior :=
  ⟨fun _ => .ok (), fun s => if s = "s" then .error "no coreml" else .ok ()⟩

/-- Oracles where train raises for size m only and export always returns. -/
def bTrainFailM : Behavior :=
  ⟨fun s => if s = "m" then .error "cuda oom" else .ok (), fun _ => .ok ()⟩

/-- Claim C1: when every train call in the sequence returns, then for every
variant the export operation is invoked requesting the coreml format with
nms embedded, any export error is recorded as that variant failure outcome
and does not abort the loop (no uncaught exception escapes), and every
variant in the sequence still gets its train call. -/
theorem c1_export_failure_contained (cfg : ScriptConfig) (b : Behavior)
    (d : String) (sizes : List String)
    (hT : ∀ s ∈ sizes, b.trainResult s = .ok ()) :
    (∀ s ∈ sizes,
        Event.trainCall s (d ++ "/data.yaml") (batchFor cfg s)
            ∈ (runLoop cfg b d sizes).events ∧
        Event.exportCall s "coreml" true ∈ (runLoop cfg b d sizes).events) ∧
    (∀ s e, s ∈ sizes → b.exportResult s = .error e →
        RunOutcome.failure s e ∈ (runLoop cfg b d sizes).outcomes) ∧
    (runLoop cfg b d sizes).uncaught = none := by
  rw [runLoop_all_trains_ok cfg b d sizes hT]
  refine ⟨?_, ?_, rfl⟩
  · intro s hs
    constructor
    · simp only [List.mem_flatten]
      exact ⟨variantBlock cfg d s, List.mem_map_of_mem _ hs, by simp [variantBlock]⟩
    · simp only [List.mem_flatten]
      exact ⟨variantBlock cfg d s, List.mem_map_of_mem _ hs, by simp [variantBlock]⟩
  · intro s e hs he
    have hout : outcomeOf cfg b s = .failure s e := by simp [outcomeOf, he]
    rw [← hout]
    exact List.mem_map_of_mem _ hs

/-- Witness for C1 at a concrete input: two variants, export raises on the
first one only. -/
theorem c1_witness :
    (∀ s ∈ ["s", "m"],
        Event.trainCall s ("D" ++ "/data.yaml") (batchFor gpuConfig s)
            ∈ (runLoop gpuConfig bExportFailS "D" ["s", "m"]).events ∧
        Event.exportCall s "coreml" true
            ∈ (runLoop gpuConfig bExportFailS "D" ["s", "m"]).events) ∧
    (∀ s e, s ∈ ["s", "m"] → bExportFailS.exportResult s = .error e →
        RunOutcome.failure s e ∈ (runLoop gpuConfig bExportFailS "D" ["s", "m"]).outcomes) ∧
    (runLoop gpuConfig bExportFailS "D" ["s", "m"]).uncaught = none :=
  c1_export_failure_contained gpuConfig bExportFailS "D" ["s", "m"] (fun _ _ => rfl)

/-- Claim C2: a train error is not caught.  If train raises on variant s
and returns on every earlier variant, the run stops at the failing train
call: the trace is the blocks of the earlier variants followed by the
failing train call only (so neither train nor export is invoked for any
later variant), the outcomes cover exactly the earlier variants, the error
escapes uncaught, and the whole run is literally the run truncated right
after the failing variant. -/
theorem c2_train_error_aborts (cfg : ScriptConfig) (b : Behavior)
    (d s e : String) (pre post : List String)
    (hs : b.trainResult s = .error e)
    (hpre : ∀ x ∈ pre, b.trainResult x = .ok ()) :
    runLoop cfg b d (pre ++ s :: post) =
      ⟨(pre.map (variantBlock cfg d)).flatten ++
         [.trainCall s (d ++ "/data.yaml") (batchFor cfg s)],
       pre.map (outcomeOf cfg b), some e⟩ ∧
    runLoop cfg b d (pre ++ s :: post) = runLoop cfg b d (pre ++ [s]) := by
  have h1 := runLoop_train_error cfg b d s e post hs pre hpre
  have h2 := runLoop_train_error cfg b d s e [] hs pre hpre
  exact ⟨h1, h1.trans h2.symm⟩

/-- Witness for C2 at a concrete input: train raises on m, so s gets an
outcome and l is never reached. -/
theorem c2_witness :
    runLoop gpuConfig bTrainFailM "D" (["s"] ++ "m" :: ["l"]) =
      ⟨(["s"].map (variantBlock gpuConfig "D")).flatten ++
         [.trainCall "m" ("D" ++ "/data.yaml") (batchFor gpuConfig "m")],
       ["s"].map (outcomeOf gpuConfig bTrainFailM), some "cuda oom"⟩ ∧
    runLoop gpuConfig bTrainFailM "D" (["s"] ++ "m" :: ["l"]) =
      runLoop gpuConfig bTrainFailM "D" (["s"] ++ ["m"]) :=
  c2_train_error_aborts gpuConfig bTrainFailM "D" "m" "cuda oom" ["s"] ["l"]
    (by simp [bTrainFailM]) (by simp [bTrainFailM])

/-- Claim C3: when every train call returns, the loop yields one outcome
per variant in input order; a success carries the artifact location
derived from the variant name by the fixed naming convention, and a
failure carries the captured export error. -/
theorem c3_outcomes_per_variant (cfg : ScriptConfig) (b : Behavior)
    (d : String) (sizes : List String)
    (hT : ∀ s ∈ sizes, b.trainResult s = .ok ()) :
    (runLoop cfg b d sizes).outcomes =
      sizes.map (fun s =>
        match b.exportResult s with
        | .ok _ => RunOutcome.success s (artifactPath cfg s)
        | .error e => RunOutcome.failure s e) ∧
    (runLoop cfg b d sizes).outcomes.length = sizes.length := by
  rw [runLoop_all_trains_ok cfg b d sizes hT]
  exact ⟨rfl, by simp⟩

/-- Witness for C3 at a concrete input: the yolo12 configuration with
export raising on s, checked on the two-variant sequence. -/
theorem c3_witness :
    (runLoop yolo12Config bExportFailS "D" ["s", "m"]).outcomes =
      ["s", "m"].map (fun s =>
        match bExportFailS.exportResult s with
        | .ok _ => RunOutcome.success s (artifactPath yolo12Config s)
        | .error e => RunOutcome.failure s e) ∧
    (runLoop yolo12Config bExportFailS "D" ["s", "m"]).outcomes.length =
      (["s", "m"] : List String).length :=
  c3_outcomes_per_variant yolo12Config bExportFailS "D" ["s", "m"] (fun _ _ => rfl)

/-- Claim C4: every train call the loop issues for a variant carries
exactly the batch size of the override table when the variant is present
in it, and the default 16 when it is absent. -/
theorem c4_batch_lookup (cfg : ScriptConfig) (b : Behavior) (d : String)
    (sizes : List String) (s data : String) (n : Nat)
    (hmem : Event.trainCall s data n ∈ (runLoop cfg b d sizes).events) :
    (∀ k, cfg.batchConfig.lookup s = some k → n = k) ∧
    (cfg.batchConfig.lookup s = none → n = 16) := by
  obtain ⟨hn, -⟩ := trainCall_mem_batch cfg b d sizes s data n hmem
  constructor
  · intro k hk
    rw [hn, batchFor, hk]
    rfl
  · intro hk
    rw [hn, batchFor, hk]
    rfl

/-- Witness for C4 at a concrete input: the train call for s under the
A100 table carries batch 128. -/
theorem c4_witness :
    (∀ k, gpuConfig.batchConfig.lookup "s" = some k → 128 = k) ∧
    (gpuConfig.batchConfig.lookup "s" = none → 128 = 16) :=
  c4_batch_lookup gpuConfig bAllOk "D" ["s"] "s" ("D" ++ "/data.yaml") 128
    (by simp [runLoop, bAllOk, batchFor, gpuConfig, TrainGpu.BATCH_CONFIG])

/-- Claim C8: when every train call returns, the trace of the loop is
exactly the concatenation, in input order, of each variant block (its
train call immediately followed by its export call), and the outcomes
name the variants in input order — no reordering, no interleaving, no
variant skipped because of another variant export failure. -/
theorem c8_sequential_order (cfg : ScriptConfig) (b : Behavior)
    (d : String) (sizes : List String)
    (hT : ∀ s ∈ sizes, b.trainResult s = .ok ()) :
    (runLoop cfg b d sizes).events = (sizes.map (variantBlock cfg d)).flatten ∧
    (runLoop cfg b d sizes).outcomes.map variantName = sizes := by
  rw [runLoop_all_trains_ok cfg b d sizes hT]
  refine ⟨rfl, ?_⟩
  rw [List.map_map]
  have : ∀ x ∈ sizes, (variantName ∘ outcomeOf cfg b) x = id x := by
    intro x _
    exact variantName_outcomeOf cfg b x
  rw [List.map_congr_left this, List.map_id]

/-- Witness for C8 at a concrete input: three variants with an export
failure in the middle, still processed in declared order. -/
theorem c8_witness :
    (runLoop gpuConfig bExportFailS "D" ["s", "m", "l"]).events =
      (["s", "m", "l"].map (variantBlock gpuConfig "D")).flatten ∧
    (runLoop gpuConfig bExportFailS "D" ["s", "m", "l"]).outcomes.map variantName =
      ["s", "m", "l"] :=
  c8_sequential_order gpuConfig bExportFailS "D" ["s", "m", "l"] (fun _ _ => rfl)

/-- Claim C5: when the local dataset descriptor exists, every one of the
three resolvers returns the local dataset directory with an empty trace —
the remote fetch is never invoked — whatever the credential value. -/
theorem c5_local_short_circuits (cwd apiKey : String) (w : World)
    (h : w.localExists = true) :
    TrainPy.resolve cwd apiKey w = ([], .ok (cwd ++ "/dataset")) ∧
    TrainGpu.resolve cwd apiKey w = ([], .ok (cwd ++ "/dataset")) ∧
    TrainGpuYolo12.resolve cwd apiKey w = ([], .ok (cwd ++ "/dataset")) := by
  refine ⟨?_, ?_, ?_⟩ <;>
    simp [TrainPy.resolve, TrainGpu.resolve, TrainGpuYolo12.resolve, h]

/-- Witness for C5 at a concrete input: a local dataset with a broken
network and a placeholder credential. -/
theorem c5_witness :
    TrainPy.resolve "/work" "YOUR_API_KEY_HERE" wLocal =
      ([], .ok ("/work" ++ "/dataset")) ∧
    TrainGpu.resolve "/work" "YOUR_API_KEY_HERE" wLocal =
      ([], .ok ("/work" ++ "/dataset")) ∧
    TrainGpuYolo12.resolve "/work" "YOUR_API_KEY_HERE" wLocal =
      ([], .ok ("/work" ++ "/dataset")) :=
  c5_local_short_circuits "/work" "YOUR_API_KEY_HERE" wLocal rfl

/-- Claim C6: with no local descriptor and an empty or placeholder
credential, resolution fails with the missing-credential error and an
empty trace (the fetch is never attempted), and the whole train-gpu run
exits cleanly with no event at all — no training is attempted. -/
theorem c6_missing_credential (cwd apiKey : String) (w : World) (b : Behavior)
    (hl : w.localExists = false)
    (hk : apiKey = "" ∨ apiKey = "YOUR_API_KEY_HERE") :
    TrainPy.resolve cwd apiKey w = ([], .error .missingCredential) ∧
    TrainGpu.resolve cwd apiKey w = ([], .error .missingCredential) ∧
    mainTrainGpu cwd apiKey w b = ⟨[], [], none⟩ := by
  have hres : TrainGpu.resolve cwd apiKey w = ([], .error .missingCredential) := by
    simp [TrainGpu.resolve, hl, hk]
  refine ⟨?_, hres, ?_⟩
  · simp [TrainPy.resolve, hl, hk]
  · unfold mainTrainGpu
    rw [hres]

/-- Witness for C6 at a concrete input: empty credential, no local
dataset. -/
theorem c6_witness :
    TrainPy.resolve "/work" "" wNoLocal = ([], .error .missingCredential) ∧
    TrainGpu.resolve "/work" "" wNoLocal = ([], .error .missingCredential) ∧
    mainTrainGpu "/work" "" wNoLocal bAllOk = ⟨[], [], none⟩ :=
  c6_missing_credential "/work" "" wNoLocal bAllOk rfl (Or.inl rfl)

/-- Claim C7: with no local descriptor, a usable credential and a raising
remote fetch, resolution fails with the fetch error carrying the
underlying message, and the whole train-gpu run performs the fetch call
only — no train or export is ever invoked — and exits cleanly (no
uncaught exception, no outcome). -/
theorem c7_fetch_error_fatal (cwd apiKey msg : String) (w : World) (b : Behavior)
    (hl : w.localExists = false)
    (hk1 : ¬apiKey = "") (hk2 : ¬apiKey = "YOUR_API_KEY_HERE")
    (hf : w.fetchResult = .error msg) :
    TrainPy.resolve cwd apiKey w =
      ([.fetchCall "yolo-jpkho" "combined-vegetables-fruits" 1 "yolov8"],
       .error (.fetchError msg)) ∧
    TrainGpu.resolve cwd apiKey w =
      ([.fetchCall "yolo-jpkho" "combined-vegetables-fruits" 1 "yolov8"],
       .error (.fetchError msg)) ∧
    mainTrainGpu cwd apiKey w b =
      ⟨[.fetchCall "yolo-jpkho" "combined-vegetables-fruits" 1 "yolov8"],
       [], none⟩ := by
  have hres : TrainGpu.resolve cwd apiKey w =
      ([.fetchCall "yolo-jpkho" "combined-vegetables-fruits" 1 "yolov8"],
       .error (.fetchError msg)) := by
    simp [TrainGpu.resolve, hl, hk1, hk2, hf,
      TrainGpu.PROJECT_WORKSPACE, TrainGpu.PROJECT_NAME, TrainGpu.VERSION_NUMBER]
  refine ⟨?_, hres, ?_⟩
  · simp [TrainPy.resolve, hl, hk1, hk2, hf,
      TrainPy.PROJECT_WORKSPACE, TrainPy.PROJECT_NAME, TrainPy.VERSION_NUMBER]
  · unfold mainTrainGpu
    rw [hres]

/-- Witness for C7 at a concrete input: a real-looking credential and a
fetch that raises http 401. -/
theorem c7_witness :
    TrainPy.resolve "/work" "someKey" wNoLocal =
      ([.fetchCall "yolo-jpkho" "combined-vegetables-fruits" 1 "yolov8"],
       .error (.fetchError "http 401")) ∧
    TrainGpu.resolve "/work" "someKey" wNoLocal =
      ([.fetchCall "yolo-jpkho" "combined-vegetables-fruits" 1 "yolov8"],
       .error (.fetchError "http 401")) ∧
    mainTrainGpu "/work" "someKey" wNoLocal bAllOk =
      ⟨[.fetchCall "yolo-jpkho" "combined-vegetables-fruits" 1 "yolov8"],
       [], none⟩ :=
  c7_fetch_error_fatal "/work" "someKey" "http 401" wNoLocal bAllOk rfl
    (by decide) (by decide) rfl

/-- Claim C9: with the environment variable unset, the credential takes
the embedded literal default, which is non-empty and differs from the
placeholder sentinel, so whenever no local descriptor exists the
missing-credential branch is unreachable and the remote fetch is always
attempted with that default credential. -/
theorem c9_default_key_fetches (cwd : String) (w : World)
    (hl : w.localExists = false) :
    TrainGpu.API_KEY none ≠ "" ∧
    TrainGpu.API_KEY none ≠ "YOUR_API_KEY_HERE" ∧
    (TrainGpu.resolve cwd (TrainGpu.API_KEY none) w).1 =
      [.fetchCall "yolo-jpkho" "combined-vegetables-fruits" 1 "yolov8"] ∧
    (TrainGpu.resolve cwd (TrainGpu.API_KEY none) w).2 ≠
      .error .missingCredential := by
  have hcond : ¬(TrainGpu.API_KEY none = "" ∨
      TrainGpu.API_KEY none = "YOUR_API_KEY_HERE") := by decide
  refine ⟨fun h => hcond (Or.inl h), fun h => hcond (Or.inr h), ?_, ?_⟩ <;>
    cases hf : w.fetchResult <;>
      simp [TrainGpu.resolve, hl, hcond, hf,
        TrainGpu.PROJECT_WORKSPACE, TrainGpu.PROJECT_NAME, TrainGpu.VERSION_NUMBER]

/-- Witness for C9 at a concrete input: no local dataset and a failing
fetch; the guard branch is still not taken. -/
theorem c9_witness :
    TrainGpu.API_KEY none ≠ "" ∧
    TrainGpu.API_KEY none ≠ "YOUR_API_KEY_HERE" ∧
    (TrainGpu.resolve "/work" (TrainGpu.API_KEY none) wNoLocal).1 =
      [.fetchCall "yolo-jpkho" "combined-vegetables-fruits" 1 "yolov8"] ∧
    (TrainGpu.resolve "/work" (TrainGpu.API_KEY none) wNoLocal).2 ≠
      .error .missingCredential :=
  c9_default_key_fetches "/work" wNoLocal rfl

/-- Claim C10: the dataset-resolution phases of the three scripts compute
the same function: same default credential, same dataset reference, and
pointwise-equal resolution on every working directory, credential and
external world. -/
theorem c10_resolvers_agree :
    (∀ env, TrainPy.API_KEY env = TrainGpu.API_KEY env ∧
        TrainGpu.API_KEY env = TrainGpuYolo12.API_KEY env) ∧
    (TrainPy.PROJECT_WORKSPACE = TrainGpu.PROJECT_WORKSPACE ∧
        TrainGpu.PROJECT_WORKSPACE = TrainGpuYolo12.PROJECT_WORKSPACE) ∧
    (TrainPy.PROJECT_NAME = TrainGpu.PROJECT_NAME ∧
        TrainGpu.PROJECT_NAME = TrainGpuYolo12.PROJECT_NAME) ∧
    (TrainPy.VERSION_NUMBER = TrainGpu.VERSION_NUMBER ∧
        TrainGpu.VERSION_NUMBER = TrainGpuYolo12.VERSION_NUMBER) ∧
    ∀ cwd apiKey w,
      TrainPy.resolve cwd apiKey w = TrainGpu.resolve cwd apiKey w ∧
      TrainGpu.resolve cwd apiKey w = TrainGpuYolo12.resolve cwd apiKey w :=
  ⟨fun _ => ⟨rfl, rfl⟩, ⟨rfl, rfl⟩, ⟨rfl, rfl⟩, ⟨rfl, rfl⟩,
   fun _ _ _ => ⟨rfl, rfl⟩⟩
